import Mathlib

/-
Verification of the Deep Research repository's configuration module
(src/config.py) and of the spec-level supervisor / researcher budget
invariants.  Python values are embedded shallowly: the process
environment is a partial map from variable names to strings, Python
keyword-argument dictionaries are association lists with dict.setdefault
semantics, and the arguments that config.create_chat_model hands to the
external init_chat_model constructor are recorded in an InitCall value.
-/

namespace DeepResearch

/-- The process environment: os.getenv returns the variable's string or None. -/
abbrev EnvMap := String → Option String

/-- Models os.getenv(key, default): the default is used only when the variable is unset. -/
def getenvD (e : EnvMap) (key dflt : String) : String :=
  (e key).getD dflt

/-- Models the Python idiom `os.getenv(KEY) or None` used at config.py lines 39-40:
an unset variable stays None and an empty string is normalized to None
(the empty string is falsy in Python). -/
def orNone (s : Option String) : Option String :=
  match s with
  | none => none
  | some t => if t = "" then none else some t

/-- Decimal value of one digit character, none for a non-digit. -/
def digitVal (c : Char) : Option Nat :=
  if c.isDigit then some (c.toNat - '0'.toNat) else none

/-- Decimal reading of a nonempty digit list, none when empty or any non-digit occurs. -/
def digitsToNat (cs : List Char) : Option Nat :=
  cs.foldl
    (fun acc c =>
      match acc, digitVal c with
      | some n, some d => some (n * 10 + d)
      | _, _ => none)
    (if cs.isEmpty then none else some 0)

/-- Models Python int(s) on optionally signed decimal strings, the form all
config defaults take; none models the ValueError raised at module import. -/
def pyInt (s : String) : Option Int :=
  match s.data with
  | '-' :: rest => (digitsToNat rest).map fun n => -(n : Int)
  | '+' :: rest => (digitsToNat rest).map fun n => (n : Int)
  | cs => (digitsToNat cs).map fun n => (n : Int)

/-- Models Python `c in s` for a one-character needle. -/
def strContainsChar (s : String) (c : Char) : Bool :=
  s.data.contains c

/-- Models Python s.split(sep, 1)[0] for a one-character separator: the prefix
of s before the first occurrence of c (the whole string when c is absent). -/
def splitHead (s : String) (c : Char) : String :=
  ⟨s.data.takeWhile (fun x => x != c)⟩

/-- A Python keyword-argument value as used by config.py: a string (base_url,
model_provider) or an integer (max_tokens). -/
inductive KwVal where
  | str (s : String)
  | int (n : Int)
deriving DecidableEq

/-- A Python **kwargs dictionary: an insertion-ordered association list. -/
abbrev Kwargs := List (String × KwVal)

/-- Dictionary lookup: the value bound to key k, none when absent. -/
def kwargsGet (kw : Kwargs) (key : String) : Option KwVal :=
  match kw with
  | [] => none
  | (k2, v) :: rest => if k2 = key then some v else kwargsGet rest key

/-- Whether the dictionary binds key k. -/
def hasKey (kw : Kwargs) (key : String) : Bool :=
  (kwargsGet kw key).isSome

/-- Models Python dict.setdefault(key, v): insert (key, v) at the end only
when key is absent; an existing binding is never overwritten. -/
def setdefault (kw : Kwargs) (key : String) (v : KwVal) : Kwargs :=
  if hasKey kw key then kw else kw ++ [(key, v)]

/-- Decidable equality on Except results, for evaluating witnesses. -/
instance {ε α : Type} [DecidableEq ε] [DecidableEq α] : DecidableEq (Except ε α) := fun x y =>
  match x, y with
  | .error a, .error b =>
    if h : a = b then isTrue (by rw [h]) else isFalse (fun hc => h (by cases hc; rfl))
  | .ok a, .ok b =>
    if h : a = b then isTrue (by rw [h]) else isFalse (fun hc => h (by cases hc; rfl))
  | .error _, .ok _ => isFalse (fun hc => Except.noConfusion hc)
  | .ok _, .error _ => isFalse (fun hc => Except.noConfusion hc)

/-- The argument list config.create_chat_model passes to the external
init_chat_model constructor: the positional model name and the final kwargs. -/
structure InitCall where
  model : String
  kwargs : Kwargs
deriving DecidableEq

/-- The spec's ConfigurationError taxonomy entry (bad model identifier). -/
inductive ConfigurationError where
  | badModelIdentifier (name : String)
deriving DecidableEq

/-- config.py line 39: OPENAI_BASE_URL = os.getenv("OPENAI_BASE_URL") or None. -/
def OPENAI_BASE_URL (e : EnvMap) : Option String :=
  orNone (e "OPENAI_BASE_URL")

/-- config.py line 40: ANTHROPIC_BASE_URL = os.getenv("ANTHROPIC_BASE_URL") or None. -/
def ANTHROPIC_BASE_URL (e : EnvMap) : Option String :=
  orNone (e "ANTHROPIC_BASE_URL")

/-- config.py line 28: DEFAULT_MODEL (researcher default role). -/
def DEFAULT_MODEL (e : EnvMap) : String :=
  getenvD e "DEFAULT_MODEL" "openai:gpt-5"

/-- config.py line 29: SUPERVISOR_MODEL. -/
def SUPERVISOR_MODEL (e : EnvMap) : String :=
  getenvD e "SUPERVISOR_MODEL" "openai:gpt-5"

/-- config.py line 30: SUMMARIZATION_MODEL. -/
def SUMMARIZATION_MODEL (e : EnvMap) : String :=
  getenvD e "SUMMARIZATION_MODEL" "openai:gpt-5"

/-- config.py line 31: COMPRESS_MODEL. -/
def COMPRESS_MODEL (e : EnvMap) : String :=
  getenvD e "COMPRESS_MODEL" "openai:gpt-5"

/-- config.py line 32: WRITER_MODEL. -/
def WRITER_MODEL (e : EnvMap) : String :=
  getenvD e "WRITER_MODEL" "openai:gpt-5"

/-- config.py line 34: COMPRESS_MODEL_MAX_TOKENS = int(os.getenv(..., "32000")). -/
def COMPRESS_MODEL_MAX_TOKENS (e : EnvMap) : Option Int :=
  pyInt (getenvD e "COMPRESS_MODEL_MAX_TOKENS" "32000")

/-- config.py line 35: REPORT_WRITER_MODEL_MAX_TOKENS = int(os.getenv(..., "40000")). -/
def REPORT_WRITER_MODEL_MAX_TOKENS (e : EnvMap) : Option Int :=
  pyInt (getenvD e "REPORT_WRITER_MODEL_MAX_TOKENS" "40000")

/-- config.py line 36: DRAFT_WRITER_MODEL_MAX_TOKENS = int(os.getenv(..., "32000")). -/
def DRAFT_WRITER_MODEL_MAX_TOKENS (e : EnvMap) : Option Int :=
  pyInt (getenvD e "DRAFT_WRITER_MODEL_MAX_TOKENS" "32000")

/-- config.py line 43: MAX_RESEARCHER_ITERATIONS = int(os.getenv(..., "15")). -/
def MAX_RESEARCHER_ITERATIONS (e : EnvMap) : Option Int :=
  pyInt (getenvD e "MAX_RESEARCHER_ITERATIONS" "15")

/-- config.py lines 50-65, _parse_provider: the prefix before the first ':'
when ':' occurs, else the prefix before the first '/' when '/' occurs,
else None. -/
def parse_provider (name : String) : Option String :=
  if strContainsChar name ':' then some (splitHead name ':')
  else if strContainsChar name '/' then some (splitHead name '/')
  else none

/-- config.py lines 68-82, _get_base_url: OPENAI_BASE_URL for provider
"openai", ANTHROPIC_BASE_URL for provider "anthropic", None otherwise. -/
def get_base_url (e : EnvMap) (name : String) : Option String :=
  let provider := parse_provider name
  if provider = some "openai" then OPENAI_BASE_URL e
  else if provider = some "anthropic" then ANTHROPIC_BASE_URL e
  else none

/-- config.py lines 85-106, create_chat_model: setdefault the provider base
url when one resolves, setdefault the model_provider routing hint for the
"provider/model" syntax (a '/' and no ':'), then call init_chat_model with
the unchanged model name and the final kwargs.  The Except codomain records
the spec's startup ConfigurationError; the source body contains no raise
and no validation, so every branch reaches the external constructor call. -/
def create_chat_model (e : EnvMap) (name : String) (kw : Kwargs) :
    Except ConfigurationError InitCall :=
  let kw1 :=
    match get_base_url e name with
    | some u => setdefault kw "base_url" (KwVal.str u)
    | none => kw
  let kw2 :=
    if !strContainsChar name ':' && strContainsChar name '/' then
      setdefault kw1 "model_provider" (KwVal.str (splitHead name '/'))
    else kw1
  Except.ok ⟨name, kw2⟩

/-- config.py line 112: default_model = create_chat_model(DEFAULT_MODEL), no kwargs. -/
def default_model (e : EnvMap) : Except ConfigurationError InitCall :=
  create_chat_model e (DEFAULT_MODEL e) []

/-- config.py line 113: supervisor_model = create_chat_model(SUPERVISOR_MODEL), no kwargs. -/
def supervisor_model (e : EnvMap) : Except ConfigurationError InitCall :=
  create_chat_model e (SUPERVISOR_MODEL e) []

/-- config.py line 114: summarization_model = create_chat_model(SUMMARIZATION_MODEL), no kwargs. -/
def summarization_model (e : EnvMap) : Except ConfigurationError InitCall :=
  create_chat_model e (SUMMARIZATION_MODEL e) []

/-- config.py line 115: compress_model = create_chat_model(COMPRESS_MODEL,
max_tokens=COMPRESS_MODEL_MAX_TOKENS); the outer Option models the import
crash when the token-limit variable does not parse as an integer. -/
def compress_model (e : EnvMap) : Option (Except ConfigurationError InitCall) :=
  (COMPRESS_MODEL_MAX_TOKENS e).map fun n =>
    create_chat_model e (COMPRESS_MODEL e) [("max_tokens", KwVal.int n)]

/-- config.py line 116: report_writer_model = create_chat_model(WRITER_MODEL,
max_tokens=REPORT_WRITER_MODEL_MAX_TOKENS). -/
def report_writer_model (e : EnvMap) : Option (Except ConfigurationError InitCall) :=
  (REPORT_WRITER_MODEL_MAX_TOKENS e).map fun n =>
    create_chat_model e (WRITER_MODEL e) [("max_tokens", KwVal.int n)]

/-- config.py line 117: draft_writer_model = create_chat_model(WRITER_MODEL,
max_tokens=DRAFT_WRITER_MODEL_MAX_TOKENS). -/
def draft_writer_model (e : EnvMap) : Option (Except ConfigurationError InitCall) :=
  (DRAFT_WRITER_MODEL_MAX_TOKENS e).map fun n =>
    create_chat_model e (WRITER_MODEL e) [("max_tokens", KwVal.int n)]

/-- An environment with no variables set: every config default applies. -/
def emptyEnv : EnvMap := fun _ => none

/-- An environment with a proxy endpoint configured for the openai provider. -/
def proxyEnv : EnvMap := fun key =>
  if key = "OPENAI_BASE_URL" then some "https://proxy.example/v1" else none

/-- An environment whose base-url variables are set to the empty string. -/
def emptyStringEnv : EnvMap := fun key =>
  if key = "OPENAI_BASE_URL" then some ""
  else if key = "ANTHROPIC_BASE_URL" then some ""
  else none

/-- Modelled from the spec: one atomic retrieved-and-reasoned fact produced by
a Researcher Task of src/research_agent_full.py, a repository module not
included under src (spec section 3, Finding). -/
structure Finding where
  subQuestion : String
  text : String
  citations : List String
  iterationIndex : Nat
deriving DecidableEq

/-- Modelled from the spec: the bounded distillation of one sub-question's
findings (spec section 3, CompressedSummary). -/
structure CompressedSummary where
  subQuestion : String
  summary : String
  citations : List String
deriving DecidableEq

/-- Modelled from the spec: the accumulated set of summaries handed to the
Writer (spec section 3, ResearchCorpus). -/
abbrev ResearchCorpus := List CompressedSummary

/-- Modelled from the spec: the run-fatal aggregation error (spec section 7,
AggregationFailure: zero usable SubQuestion results). -/
inductive AggregationError where
  | aggregationFailure
deriving DecidableEq

/-- Modelled from the spec: the retrieve-then-reason loop of a Researcher Task
in src/research_agent_full.py, a repository module not included under src
(spec section 4.2).  The reasoning model call is an oracle: given the
iteration index and the findings so far it returns extracted findings and
whether to continue.  The first argument is the remaining iteration budget,
the second the number of iterations already performed. -/
def investigate (reasonStep : Nat → List Finding → List Finding × Bool) :
    Nat → Nat → List Finding → Nat × List Finding
  | 0, iter, acc => (iter, acc)
  | fuel + 1, iter, acc =>
    let step := reasonStep iter acc
    let acc2 := acc ++ step.1
    if step.2 then investigate reasonStep fuel (iter + 1) acc2
    else (iter + 1, acc2)

/-- Modelled from the spec: a whole Researcher Task run under the iteration
budget MAX_RESEARCHER_ITERATIONS, returning the iteration count and the
findings accumulated so far (spec section 4.2: reaching the cap is not an
error, the accumulated findings are still returned). -/
def researcherRun (maxIterations : Nat)
    (reasonStep : Nat → List Finding → List Finding × Bool) : Nat × List Finding :=
  investigate reasonStep maxIterations 0 []

/-- The findings a reasoning oracle accumulates over its first k iterations:
iteration k sees exactly the findings of iterations below k (spec section 5,
iterations are strictly sequential). -/
def accumFindings (reasonStep : Nat → List Finding → List Finding × Bool) : Nat → List Finding
  | 0 => []
  | k + 1 =>
    let acc := accumFindings reasonStep k
    acc ++ (reasonStep k acc).1

/-- Modelled from the spec: the Supervisor round loop of
src/research_agent_full.py, a repository module not included under src
(spec section 4.1).  Each round merges the round's compressed results into
the corpus; the coverage policy (a model-driven oracle, spec section 9)
decides continue-or-stop; the first argument is the remaining round budget
(run.py supplies it as the recursion limit at invocation), and exhausting it
stops the loop normally. -/
def runRounds (roundResults : Nat → List CompressedSummary)
    (needsMoreResearch : ResearchCorpus → Bool) :
    Nat → Nat → ResearchCorpus → Nat × ResearchCorpus
  | 0, round, corpus => (round, corpus)
  | fuel + 1, round, corpus =>
    let corpus2 := corpus ++ roundResults round
    if needsMoreResearch corpus2 then
      runRounds roundResults needsMoreResearch fuel (round + 1) corpus2
    else (round + 1, corpus2)

/-- Modelled from the spec: a whole pipeline run (spec sections 4.1 and 7).
After the round loop, an empty corpus is converted into AggregationFailure
and the Writer is not invoked; otherwise the Writer consumes the corpus.
The ok value records the round count, the corpus the Writer consumed and
the report it produced. -/
def deepResearch (roundBudget : Nat) (roundResults : Nat → List CompressedSummary)
    (needsMoreResearch : ResearchCorpus → Bool)
    (writeReport : ResearchCorpus → String) :
    Except AggregationError (Nat × ResearchCorpus × String) :=
  let result := runRounds roundResults needsMoreResearch roundBudget 0 []
  if result.2.isEmpty then Except.error AggregationError.aggregationFailure
  else Except.ok (result.1, result.2, writeReport result.2)

/-- A reasoning oracle that extracts nothing and always signals continue. -/
def contAlways : Nat → List Finding → List Finding × Bool := fun _ _ => ([], true)

/-- A round-result oracle on which every sub-question fails: no summaries. -/
def noResults : Nat → List CompressedSummary := fun _ => []

/-- A round-result oracle yielding one summary per round. -/
def oneSummary : Nat → List CompressedSummary := fun _ => [⟨"q", "s", ["c"]⟩]

/-- A coverage policy that always signals insufficient coverage. -/
def moreAlways : ResearchCorpus → Bool := fun _ => true

/-- A writer that concatenates the summaries of the corpus. -/
def writeConcat : ResearchCorpus → String := fun c => String.join (c.map (·.summary))

/-
Helper lemmas about the kwargs dictionary model and the budgeted loops.
-/

lemma kwargsGet_append (kw1 kw2 : Kwargs) (key : String) :
    kwargsGet (kw1 ++ kw2) key =
      match kwargsGet kw1 key with
      | some v => some v
      | none => kwargsGet kw2 key := by
  induction kw1 with
  | nil => rfl
  | cons p rest ih =>
    obtain ⟨k2, v⟩ := p
    by_cases h : k2 = key <;> simp [kwargsGet, h, ih]

lemma get_setdefault_present (kw : Kwargs) (key : String) (v w : KwVal)
    (h : kwargsGet kw key = some w) :
    kwargsGet (setdefault kw key v) key = some w := by
  simp [setdefault, hasKey, h]

lemma get_setdefault_absent (kw : Kwargs) (key : String) (v : KwVal)
    (h : kwargsGet kw key = none) :
    kwargsGet (setdefault kw key v) key = some v := by
  simp [setdefault, hasKey, h, kwargsGet_append, kwargsGet]

lemma get_setdefault_ne (kw : Kwargs) (k2 key : String) (v : KwVal)
    (h : k2 ≠ key) :
    kwargsGet (setdefault kw k2 v) key = kwargsGet kw key := by
  by_cases hk : hasKey kw k2
  · simp [setdefault, hk]
  · simp only [setdefault, hk, if_neg, Bool.false_eq_true, ite_false,
      kwargsGet_append]
    have : kwargsGet [(k2, v)] key = none := by simp [kwargsGet, h]
    rw [this]
    cases kwargsGet kw key <;> rfl

lemma get_setdefault_mono (kw : Kwargs) (k2 : String) (v2 : KwVal)
    (key : String) (v : KwVal) (h : kwargsGet kw key = some v) :
    kwargsGet (setdefault kw k2 v2) key = some v := by
  by_cases hk : k2 = key
  · subst hk; exact get_setdefault_present kw k2 v2 v h
  · rw [get_setdefault_ne kw k2 key v2 hk]; exact h

lemma runRounds_round_le (rr : Nat → List CompressedSummary)
    (nm : ResearchCorpus → Bool) :
    ∀ (fuel round : Nat) (corpus : ResearchCorpus),
      (runRounds rr nm fuel round corpus).1 ≤ round + fuel := by
  intro fuel
  induction fuel with
  | zero => intro round corpus; simp [runRounds]
  | succ f ih =>
    intro round corpus
    simp only [runRounds]
    split
    · exact le_trans (ih (round + 1) _) (by omega)
    · simp

lemma runRounds_all_empty (rr : Nat → List CompressedSummary)
    (nm : ResearchCorpus → Bool) (h : ∀ k, rr k = []) :
    ∀ (fuel round : Nat), (runRounds rr nm fuel round []).2 = [] := by
  intro fuel
  induction fuel with
  | zero => intro round; simp [runRounds]
  | succ f ih =>
    intro round
    simp only [runRounds, h round, List.append_nil]
    split
    · exact ih (round + 1)
    · rfl

lemma investigate_invariant (r : Nat → List Finding → List Finding × Bool) :
    ∀ (fuel iter : Nat),
      (investigate r fuel iter (accumFindings r iter)).1 ≤ iter + fuel ∧
      (investigate r fuel iter (accumFindings r iter)).2 =
        accumFindings r (investigate r fuel iter (accumFindings r iter)).1 := by
  intro fuel
  induction fuel with
  | zero => intro iter; exact ⟨by simp [investigate], by simp [investigate]⟩
  | succ f ih =>
    intro iter
    have hacc : accumFindings r iter ++ (r iter (accumFindings r iter)).1 =
        accumFindings r (iter + 1) := rfl
    simp only [investigate]
    by_cases hc : (r iter (accumFindings r iter)).2 = true
    · simp only [hc, if_true, hacc]
      refine ⟨le_trans (ih (iter + 1)).1 (by omega), (ih (iter + 1)).2⟩
    · simp only [Bool.not_eq_true] at hc
      simp only [hc, Bool.false_eq_true, if_false, hacc]
      exact ⟨by omega, trivial⟩

lemma create_chat_model_ok (e : EnvMap) (name : String) (kw : Kwargs) :
    ∃ call, create_chat_model e name kw = Except.ok call :=
  ⟨_, rfl⟩

lemma create_chat_model_model (e : EnvMap) (name : String) (kw : Kwargs)
    (call : InitCall) (hc : create_chat_model e name kw = Except.ok call) :
    call.model = name := by
  simp only [create_chat_model, Except.ok.injEq] at hc
  subst hc
  rfl

lemma create_chat_model_get_other (e : EnvMap) (name : String) (kw : Kwargs)
    (key : String) (hk1 : key ≠ "base_url") (hk2 : key ≠ "model_provider")
    (call : InitCall) (hc : create_chat_model e name kw = Except.ok call) :
    kwargsGet call.kwargs key = kwargsGet kw key := by
  simp only [create_chat_model, Except.ok.injEq] at hc
  subst hc
  by_cases hsl : (!strContainsChar name ':' && strContainsChar name '/') = true <;>
    cases hbu : get_base_url e name <;>
      simp only [hbu, hsl, if_true, if_false, Bool.false_eq_true, ite_false, ite_true]
  · exact get_setdefault_ne kw "model_provider" key _ (Ne.symm hk2)
  · rw [get_setdefault_ne _ "model_provider" key _ (Ne.symm hk2)]
    exact get_setdefault_ne kw "base_url" key _ (Ne.symm hk1)
  · exact get_setdefault_ne kw "base_url" key _ (Ne.symm hk1)

lemma create_chat_model_mono (e : EnvMap) (name : String) (kw : Kwargs)
    (key : String) (v : KwVal) (h : kwargsGet kw key = some v)
    (call : InitCall) (hc : create_chat_model e name kw = Except.ok call) :
    kwargsGet call.kwargs key = some v := by
  simp only [create_chat_model, Except.ok.injEq] at hc
  subst hc
  by_cases hsl : (!strContainsChar name ':' && strContainsChar name '/') = true <;>
    cases hbu : get_base_url e name <;>
      simp only [hbu, hsl, if_true, if_false, Bool.false_eq_true, ite_false, ite_true]
  · exact get_setdefault_mono kw "model_provider" _ key v h
  · exact get_setdefault_mono _ "model_provider" _ key v
      (get_setdefault_mono kw "base_url" _ key v h)
  · exact h
  · exact get_setdefault_mono kw "base_url" _ key v h

/-- C1 (amended): for every model identifier containing neither ':' nor '/',
create_chat_model performs no validation and raises no configuration error
of its own: it completes normally, forwarding the identifier unchanged to
the external init_chat_model constructor with no base-url override and no
model_provider routing hint, deferring any failure to that library call
(which, because all role models are built at module import, would still
surface at startup). -/
theorem create_chat_model_forwards_unseparated : ∀ (e : EnvMap) (name : String) (kw : Kwargs),
    strContainsChar name ':' = false → strContainsChar name '/' = false →
    create_chat_model e name kw = Except.ok ⟨name, kw⟩ := by
  intro e name kw h1 h2
  have hp : parse_provider name = none := by simp [parse_provider, h1, h2]
  have hbu : get_base_url e name = none := by simp [get_base_url, hp]
  simp [create_chat_model, hbu, h1, h2]

/-- Witness for C1 (amended) at the concrete identifier "mistral-large". -/
theorem create_chat_model_forwards_unseparated_w :
    create_chat_model emptyEnv "mistral-large" [] = Except.ok ⟨"mistral-large", []⟩ :=
  create_chat_model_forwards_unseparated emptyEnv "mistral-large" [] (by decide) (by decide)

/-- C1 counterexample: "gpt-4o" contains neither separator, yet
create_chat_model completes normally and hands the identifier to the
external constructor; it does not fail with a configuration error. -/
theorem create_chat_model_gpt4o_not_rejected :
    strContainsChar "gpt-4o" ':' = false ∧ strContainsChar "gpt-4o" '/' = false ∧
    create_chat_model emptyEnv "gpt-4o" [] = Except.ok ⟨"gpt-4o", []⟩ := by
  decide

/-- C2: the base-endpoint override is OPENAI_BASE_URL for provider prefix
"openai", ANTHROPIC_BASE_URL for provider prefix "anthropic", and none for
every other provider prefix or when there is no prefix. -/
theorem get_base_url_provider_mapping : ∀ (e : EnvMap) (name : String),
    (parse_provider name = some "openai" → get_base_url e name = OPENAI_BASE_URL e) ∧
    (parse_provider name = some "anthropic" → get_base_url e name = ANTHROPIC_BASE_URL e) ∧
    (∀ p, parse_provider name = some p → p ≠ "openai" → p ≠ "anthropic" →
      get_base_url e name = none) ∧
    (parse_provider name = none → get_base_url e name = none) := by
  intro e name
  refine ⟨?_, ?_, ?_, ?_⟩
  · intro h; simp [get_base_url, h]
  · intro h; simp [get_base_url, h]
  · intro p h hp1 hp2; simp [get_base_url, h, hp1, hp2]
  · intro h; simp [get_base_url, h]

/-- Witness for C2: with a proxy endpoint configured, an "openai:" identifier
resolves to it. -/
theorem get_base_url_provider_mapping_w :
    get_base_url proxyEnv "openai:gpt-5" = some "https://proxy.example/v1" := by
  have h := (get_base_url_provider_mapping proxyEnv "openai:gpt-5").1 (by decide)
  rw [h]; decide

/-- C3: create_chat_model accepts both identifier syntaxes; for the
"provider/model" form (a '/' and no ':') the provider segment is passed as
the model_provider routing hint, while for the "provider:model" form no
hint is passed (the caller not having supplied one). -/
theorem create_chat_model_slash_hint : ∀ (e : EnvMap) (name : String) (kw : Kwargs),
    kwargsGet kw "model_provider" = none →
    (∃ call, create_chat_model e name kw = Except.ok call) ∧
    (strContainsChar name ':' = false → strContainsChar name '/' = true →
      ∀ call, create_chat_model e name kw = Except.ok call →
        call.model = name ∧
        kwargsGet call.kwargs "model_provider" = some (KwVal.str (splitHead name '/'))) ∧
    (strContainsChar name ':' = true →
      ∀ call, create_chat_model e name kw = Except.ok call →
        call.model = name ∧ kwargsGet call.kwargs "model_provider" = none) := by
  intro e name kw hmp
  refine ⟨create_chat_model_ok e name kw, ?_, ?_⟩
  · intro h1 h2 call hc
    refine ⟨create_chat_model_model e name kw call hc, ?_⟩
    simp only [create_chat_model, Except.ok.injEq] at hc
    subst hc
    have hsl : (!strContainsChar name ':' && strContainsChar name '/') = true := by
      simp [h1, h2]
    cases hbu : get_base_url e name <;> simp only [hbu, hsl, if_true, ite_true]
    · exact get_setdefault_absent kw "model_provider" _ hmp
    · refine get_setdefault_absent _ "model_provider" _ ?_
      rw [get_setdefault_ne kw "base_url" "model_provider" _ (by decide)]
      exact hmp
  · intro h1 call hc
    refine ⟨create_chat_model_model e name kw call hc, ?_⟩
    simp only [create_chat_model, Except.ok.injEq] at hc
    subst hc
    have hsl : (!strContainsChar name ':' && strContainsChar name '/') = false := by
      simp [h1]
    cases hbu : get_base_url e name <;>
      simp only [hbu, hsl, Bool.false_eq_true, if_false, ite_false]
    · exact hmp
    · rw [get_setdefault_ne kw "base_url" "model_provider" _ (by decide)]
      exact hmp

/-- Witness for C3 at "meta-llama/llama-3" (hint passed) and "openai:gpt-5"
(no hint passed). -/
theorem create_chat_model_slash_hint_w :
    (InitCall.model ⟨"meta-llama/llama-3", [("model_provider", KwVal.str "meta-llama")]⟩ =
        "meta-llama/llama-3" ∧
      kwargsGet [("model_provider", KwVal.str "meta-llama")] "model_provider" =
        some (KwVal.str (splitHead "meta-llama/llama-3" '/'))) ∧
    (InitCall.model ⟨"openai:gpt-5", []⟩ = "openai:gpt-5" ∧
      kwargsGet ([] : Kwargs) "model_provider" = none) := by
  have h := create_chat_model_slash_hint emptyEnv "meta-llama/llama-3" [] (by decide)
  have h2 := create_chat_model_slash_hint emptyEnv "openai:gpt-5" [] (by decide)
  exact ⟨h.2.1 (by decide) (by decide)
      ⟨"meta-llama/llama-3", [("model_provider", KwVal.str "meta-llama")]⟩ (by decide),
    h2.2.2 (by decide) ⟨"openai:gpt-5", []⟩ (by decide)⟩

/-- C8: the ':' separator takes precedence over '/': the provider is the
substring before the first ':', and no model_provider hint is added even
when the identifier also contains '/'. -/
theorem colon_precedence : ∀ (e : EnvMap) (name : String) (kw : Kwargs),
    strContainsChar name ':' = true →
    parse_provider name = some (splitHead name ':') ∧
    ∀ call, create_chat_model e name kw = Except.ok call →
      kwargsGet call.kwargs "model_provider" = kwargsGet kw "model_provider" := by
  intro e name kw h
  constructor
  · simp [parse_provider, h]
  · intro call hc
    simp only [create_chat_model, Except.ok.injEq] at hc
    subst hc
    have hsl : (!strContainsChar name ':' && strContainsChar name '/') = false := by
      simp [h]
    cases hbu : get_base_url e name <;>
      simp only [hbu, hsl, Bool.false_eq_true, if_false, ite_false]
    exact get_setdefault_ne kw "base_url" "model_provider" _ (by decide)

/-- Witness for C8 at "openai:org/model", which contains both separators. -/
theorem colon_precedence_w :
    parse_provider "openai:org/model" = some "openai" ∧
    kwargsGet [("base_url", KwVal.str "https://proxy.example/v1")] "model_provider" =
      kwargsGet ([] : Kwargs) "model_provider" := by
  have h := colon_precedence proxyEnv "openai:org/model" [] (by decide)
  refine ⟨?_, h.2 ⟨"openai:org/model", [("base_url", KwVal.str "https://proxy.example/v1")]⟩
    (by decide)⟩
  rw [h.1]; decide

/-- C9: create_chat_model never overrides caller-supplied keyword arguments:
every binding present in the caller's kwargs survives unchanged in the
arguments handed to the external constructor (setdefault semantics), and
the model name is forwarded unchanged. -/
theorem caller_kwargs_preserved : ∀ (e : EnvMap) (name : String) (kw : Kwargs)
    (key : String) (v : KwVal) (call : InitCall),
    kwargsGet kw key = some v →
    create_chat_model e name kw = Except.ok call →
    call.model = name ∧ kwargsGet call.kwargs key = some v := by
  intro e name kw key v call h hc
  exact ⟨create_chat_model_model e name kw call hc,
    create_chat_model_mono e name kw key v h call hc⟩

/-- Witness for C9: a caller-supplied base_url survives although the
environment configures a different endpoint for the openai provider. -/
theorem caller_kwargs_preserved_w :
    InitCall.model ⟨"openai:gpt-5", [("base_url", KwVal.str "custom")]⟩ = "openai:gpt-5" ∧
    kwargsGet (InitCall.kwargs ⟨"openai:gpt-5", [("base_url", KwVal.str "custom")]⟩)
      "base_url" = some (KwVal.str "custom") :=
  caller_kwargs_preserved proxyEnv "openai:gpt-5" [("base_url", KwVal.str "custom")]
    "base_url" (KwVal.str "custom") ⟨"openai:gpt-5", [("base_url", KwVal.str "custom")]⟩
    (by decide) (by decide)

/-- C10: a base-url environment variable that is set to the empty string is
normalized to none, exactly like an unset variable, and consequently
create_chat_model adds no base_url argument for any identifier. -/
theorem empty_base_url_ignored : ∀ (e : EnvMap) (name : String) (kw : Kwargs),
    e "OPENAI_BASE_URL" = some "" → e "ANTHROPIC_BASE_URL" = some "" →
    OPENAI_BASE_URL e = none ∧ ANTHROPIC_BASE_URL e = none ∧
    ∀ call, create_chat_model e name kw = Except.ok call →
      kwargsGet call.kwargs "base_url" = kwargsGet kw "base_url" := by
  intro e name kw h1 h2
  have ho : OPENAI_BASE_URL e = none := by simp [OPENAI_BASE_URL, orNone, h1]
  have ha : ANTHROPIC_BASE_URL e = none := by simp [ANTHROPIC_BASE_URL, orNone, h2]
  have hbu : get_base_url e name = none := by
    simp [get_base_url, ho, ha]
  refine ⟨ho, ha, ?_⟩
  intro call hc
  simp only [create_chat_model, hbu, Except.ok.injEq] at hc
  subst hc
  by_cases hsl : (!strContainsChar name ':' && strContainsChar name '/') = true <;>
    simp only [hsl, if_true, ite_true, Bool.false_eq_true, if_false, ite_false]
  exact get_setdefault_ne kw "model_provider" "base_url" _ (by decide)

/-- Witness for C10: both base-url variables set to the empty string. -/
theorem empty_base_url_ignored_w :
    OPENAI_BASE_URL emptyStringEnv = none ∧ ANTHROPIC_BASE_URL emptyStringEnv = none ∧
    kwargsGet ([] : Kwargs) "base_url" = kwargsGet ([] : Kwargs) "base_url" := by
  have h := empty_base_url_ignored emptyStringEnv "openai:gpt-5" [] (by decide) (by decide)
  exact ⟨h.1, h.2.1, h.2.2 ⟨"openai:gpt-5", []⟩ (by decide)⟩

/-- C4 counterexample: with the default environment the supervisor, default
researcher and summarization models are constructed with empty kwargs, so
no output-token limit is applied for these roles (config.py defines no
token-limit constant for them at all). -/
theorem supervisor_no_max_tokens :
    supervisor_model emptyEnv = Except.ok ⟨"openai:gpt-5", []⟩ ∧
    default_model emptyEnv = Except.ok ⟨"openai:gpt-5", []⟩ ∧
    summarization_model emptyEnv = Except.ok ⟨"openai:gpt-5", []⟩ := by
  decide

/-- C4 (amended): only the compressor and writer roles apply a configured
output-token limit (COMPRESS_MODEL_MAX_TOKENS, REPORT_WRITER_MODEL_MAX_TOKENS,
DRAFT_WRITER_MODEL_MAX_TOKENS respectively); the supervisor, default
researcher and summarization models are constructed without a max_tokens
argument. -/
theorem role_token_limits : ∀ (e : EnvMap) (n1 n2 n3 : Int),
    COMPRESS_MODEL_MAX_TOKENS e = some n1 →
    REPORT_WRITER_MODEL_MAX_TOKENS e = some n2 →
    DRAFT_WRITER_MODEL_MAX_TOKENS e = some n3 →
    (∀ call, compress_model e = some (Except.ok call) →
      kwargsGet call.kwargs "max_tokens" = some (KwVal.int n1)) ∧
    (∀ call, report_writer_model e = some (Except.ok call) →
      kwargsGet call.kwargs "max_tokens" = some (KwVal.int n2)) ∧
    (∀ call, draft_writer_model e = some (Except.ok call) →
      kwargsGet call.kwargs "max_tokens" = some (KwVal.int n3)) ∧
    (∀ call, supervisor_model e = Except.ok call →
      kwargsGet call.kwargs "max_tokens" = none) ∧
    (∀ call, default_model e = Except.ok call →
      kwargsGet call.kwargs "max_tokens" = none) ∧
    (∀ call, summarization_model e = Except.ok call →
      kwargsGet call.kwargs "max_tokens" = none) := by
  intro e n1 n2 n3 h1 h2 h3
  refine ⟨?_, ?_, ?_, ?_, ?_, ?_⟩
  · intro call hc
    simp only [compress_model, h1, Option.map_some', Option.some.injEq] at hc
    exact create_chat_model_mono e (COMPRESS_MODEL e) _ "max_tokens" (KwVal.int n1)
      (by simp [kwargsGet]) call hc
  · intro call hc
    simp only [report_writer_model, h2, Option.map_some', Option.some.injEq] at hc
    exact create_chat_model_mono e (WRITER_MODEL e) _ "max_tokens" (KwVal.int n2)
      (by simp [kwargsGet]) call hc
  · intro call hc
    simp only [draft_writer_model, h3, Option.map_some', Option.some.injEq] at hc
    exact create_chat_model_mono e (WRITER_MODEL e) _ "max_tokens" (KwVal.int n3)
      (by simp [kwargsGet]) call hc
  · intro call hc
    rw [supervisor_model] at hc
    rw [create_chat_model_get_other e (SUPERVISOR_MODEL e) [] "max_tokens"
      (by decide) (by decide) call hc]
    rfl
  · intro call hc
    rw [default_model] at hc
    rw [create_chat_model_get_other e (DEFAULT_MODEL e) [] "max_tokens"
      (by decide) (by decide) call hc]
    rfl
  · intro call hc
    rw [summarization_model] at hc
    rw [create_chat_model_get_other e (SUMMARIZATION_MODEL e) [] "max_tokens"
      (by decide) (by decide) call hc]
    rfl

/-- Witness for C4 (amended) at the default environment: the compressor call
carries max_tokens 32000, the supervisor call carries none. -/
theorem role_token_limits_w :
    kwargsGet [("max_tokens", KwVal.int 32000)] "max_tokens" = some (KwVal.int 32000) ∧
    kwargsGet ([] : Kwargs) "max_tokens" = none := by
  have h := role_token_limits emptyEnv 32000 40000 32000 (by decide) (by decide) (by decide)
  exact ⟨h.1 ⟨"openai:gpt-5", [("max_tokens", KwVal.int 32000)]⟩ (by decide),
    h.2.2.2.1 ⟨"openai:gpt-5", []⟩ (by decide)⟩

/-- C5 (spec model): the Supervisor's total round count never exceeds the
round budget, whatever the coverage policy signals; the only run-level
error is the empty-corpus aggregation failure, and a run whose corpus is
nonempty proceeds to the Writer normally even when the budget was the
reason the loop stopped. -/
theorem supervisor_round_budget : ∀ (budget : Nat)
    (rr : Nat → List CompressedSummary) (nm : ResearchCorpus → Bool)
    (w : ResearchCorpus → String),
    (runRounds rr nm budget 0 []).1 ≤ budget ∧
    (∀ err, deepResearch budget rr nm w = Except.error err →
      err = AggregationError.aggregationFailure) ∧
    ((runRounds rr nm budget 0 []).2.isEmpty = false →
      deepResearch budget rr nm w =
        Except.ok ((runRounds rr nm budget 0 []).1, (runRounds rr nm budget 0 []).2,
          w (runRounds rr nm budget 0 []).2)) := by
  intro budget rr nm w
  refine ⟨?_, ?_, ?_⟩
  · simpa using runRounds_round_le rr nm budget 0 []
  · intro err _h
    cases err
    rfl
  · intro hne
    simp [deepResearch, hne]

/-- Witness for C5: an always-insufficient coverage policy stops after the
budget of 2 rounds; a run with one summary per round and budget 1 reaches
the Writer normally. -/
theorem supervisor_round_budget_w :
    (runRounds noResults moreAlways 2 0 []).1 ≤ 2 ∧
    AggregationError.aggregationFailure = AggregationError.aggregationFailure ∧
    deepResearch 1 oneSummary moreAlways writeConcat =
      Except.ok ((runRounds oneSummary moreAlways 1 0 []).1,
        (runRounds oneSummary moreAlways 1 0 []).2,
        writeConcat (runRounds oneSummary moreAlways 1 0 []).2) := by
  refine ⟨(supervisor_round_budget 2 noResults moreAlways writeConcat).1, ?_, ?_⟩
  · exact (supervisor_round_budget 2 noResults moreAlways writeConcat).2.1
      AggregationError.aggregationFailure (by decide)
  · exact (supervisor_round_budget 1 oneSummary moreAlways writeConcat).2.2 (by decide)

/-- C6 (spec model): a Researcher Task performs at most the configured
MAX_RESEARCHER_ITERATIONS retrieve/reason iterations, whatever the
reasoning step signals, and the value it returns is exactly the findings
accumulated over the iterations it performed, not an error. -/
theorem researcher_iteration_budget : ∀ (e : EnvMap) (n : Int)
    (reasonStep : Nat → List Finding → List Finding × Bool),
    MAX_RESEARCHER_ITERATIONS e = some n →
    (researcherRun n.toNat reasonStep).1 ≤ n.toNat ∧
    (researcherRun n.toNat reasonStep).2 =
      accumFindings reasonStep (researcherRun n.toNat reasonStep).1 := by
  intro e n r _hn
  have h := investigate_invariant r n.toNat 0
  constructor
  · simpa [researcherRun, accumFindings] using h.1
  · simpa [researcherRun, accumFindings] using h.2

/-- Witness for C6 at the default configuration (15 iterations) with a
reasoning step that always signals continue. -/
theorem researcher_iteration_budget_w :
    (researcherRun (Int.toNat 15) contAlways).1 ≤ Int.toNat 15 ∧
    (researcherRun (Int.toNat 15) contAlways).2 =
      accumFindings contAlways (researcherRun (Int.toNat 15) contAlways).1 :=
  researcher_iteration_budget emptyEnv 15 contAlways (by decide)

/-- C7 (spec model): when zero sub-questions ever succeed the run fails with
AggregationFailure and the Writer is never invoked; whenever the Writer is
invoked, the corpus it consumes is nonempty and the report is its output on
exactly that corpus. -/
theorem empty_corpus_aggregation : ∀ (budget : Nat)
    (rr : Nat → List CompressedSummary) (nm : ResearchCorpus → Bool)
    (w : ResearchCorpus → String),
    ((∀ k, rr k = []) →
      deepResearch budget rr nm w = Except.error AggregationError.aggregationFailure) ∧
    (∀ rounds c rep, deepResearch budget rr nm w = Except.ok (rounds, c, rep) →
      c ≠ [] ∧ rep = w c) := by
  intro budget rr nm w
  constructor
  · intro h
    have h2 := runRounds_all_empty rr nm h budget 0
    simp [deepResearch, h2]
  · intro rounds c rep h
    by_cases hc : (runRounds rr nm budget 0 []).2.isEmpty = true
    · simp [deepResearch, hc] at h
    · rw [Bool.not_eq_true] at hc
      simp only [deepResearch, hc, Bool.false_eq_true, if_false, ite_false,
        Except.ok.injEq, Prod.mk.injEq] at h
      obtain ⟨_h1, h2, h3⟩ := h
      subst h2
      subst h3
      refine ⟨?_, rfl⟩
      intro hnil
      rw [hnil] at hc
      simp at hc

/-- Witness for C7: with every round failing, the run ends in
AggregationFailure; with one summary per round, the Writer's corpus is
nonempty and the report is the Writer's output on it. -/
theorem empty_corpus_aggregation_w :
    deepResearch 1 noResults moreAlways writeConcat =
      Except.error AggregationError.aggregationFailure ∧
    ([⟨"q", "s", ["c"]⟩] : ResearchCorpus) ≠ [] ∧
    "s" = writeConcat [⟨"q", "s", ["c"]⟩] := by
  refine ⟨(empty_corpus_aggregation 1 noResults moreAlways writeConcat).1 (fun k => rfl), ?_⟩
  exact (empty_corpus_aggregation 1 oneSummary moreAlways writeConcat).2 1
    [⟨"q", "s", ["c"]⟩] "s" (by decide)

end DeepResearch
